import Mathlib

/-!
# Verification of the `@kylejlin/option` optional-value container

A shallow embedding of `src/index.ts` (the `Option` interface, the
`OptionImpl` class, the `optionDotAll` transposition function, the
canonical `NONE` object and the `UnwrapError` class).

Modelling choices:
* JavaScript objects created by the library are identified by an
  allocation reference (a natural number); reference equality (`===`)
  between two such objects is equality of their references.  Effectful
  code is embedded in the state monad `JSM` that threads a fresh-reference
  counter and may raise a thrown JavaScript value (`throw e` becomes
  `Except.error e`).  The canonical `NONE` object is allocated once at
  module load with reference `0`; all later allocations draw strictly
  positive references from the counter.
* An option object (`Object.create(Option.prototype)` with its fields
  assigned) is either the none variant (`isNone_ = true`, no `value`
  property ever assigned) or a some variant (`isNone_ = false`, with a
  payload stored in `value`).
* The values a JavaScript program can pass to `expect` (and throw) are
  modelled by `JSValue`: a primitive string, an `Error`-like object
  (reference, `name`, `message`), or any other value identified by an
  atom.  The run-time overload dispatch `"string" === typeof message`
  becomes `typeofIsString`.
* User-supplied callbacks are arbitrary `JSM` computations, so they may
  allocate and may throw; a combinator body that contains no `try`/`catch`
  is embedded with plain monadic sequencing, which propagates a callback's
  thrown value to the combinator's caller unchanged.
-/

/-- A JavaScript value as observed by the `expect` overload dispatch and
by `throw`: a primitive string, an `Error`-like object carrying its
allocation reference together with its `name` and `message` properties,
or any other (non-string) value identified by an atom. -/
inductive JSValue : Type where
  | str (s : String)
  | errorObj (ref : Nat) (name : String) (message : String)
  | otherObj (ref : Nat)
deriving DecidableEq, Repr

/-- The run-time test `"string" === typeof v`. -/
def typeofIsString : JSValue → Bool
  | .str _ => true
  | _ => false

/-- The effect monad of the embedded JavaScript: state is the
fresh-reference allocation counter, and a computation either returns a
value or terminates with a thrown `JSValue`. -/
def JSM (α : Type) : Type := Nat → Except JSValue α × Nat

/-- Return a value, no effect. -/
def JSM.pure (a : α) : JSM α := fun c => (.ok a, c)

/-- Sequence two computations; a thrown value in the first aborts the
second, as JavaScript evaluation does in the absence of `try`/`catch`. -/
def JSM.bind (x : JSM α) (f : α → JSM β) : JSM β := fun c =>
  match x c with
  | (.ok a, c2) => f a c2
  | (.error e, c2) => (.error e, c2)

/-- `throw e`. -/
def JSM.throw (e : JSValue) : JSM α := fun c => (.error e, c)

/-- Allocate a fresh object reference. -/
def JSM.alloc : JSM Nat := fun c => (.ok c, c + 1)

instance : Monad JSM where
  pure := JSM.pure
  bind := JSM.bind

/-- An option object of the `OptionImpl` class: either the none variant
(`isNone_ = true`, no `value` property) or a some variant
(`isNone_ = false`, payload in `value`).  Both carry their allocation
reference, which models JavaScript object identity. -/
inductive OptionImpl (α : Type) : Type where
  | noneObj (ref : Nat)
  | someObj (ref : Nat) (value : α)
deriving DecidableEq, Repr

/-- The allocation reference of an option object. -/
def OptionImpl.ref : OptionImpl α → Nat
  | .noneObj r => r
  | .someObj r _ => r

/-- JavaScript reference equality (`===`) between two option objects:
the objects are the same allocation. -/
def refEq (a b : OptionImpl α) : Bool := a.ref == b.ref

/-- The canonical shared `NONE` object, created once at module load:
`Object.create(Option.prototype)` with `isNone_ = true`.  It receives
allocation reference `0`; the program's counter then starts at `1`. -/
def NONE : OptionImpl α := .noneObj 0

/-- `Option.some(value)`: creates a fresh object with `isNone_ = false`
and `value` set to the argument. -/
def OptionImpl.some (value : α) : JSM (OptionImpl α) :=
  JSM.bind JSM.alloc (fun r => JSM.pure (OptionImpl.someObj r value))

/-- `Option.none()`: returns the canonical `NONE` object; nothing is
allocated. -/
def OptionImpl.none : JSM (OptionImpl α) := JSM.pure NONE

/-- `Option.prototype.isNone()`: reads the `isNone_` field. -/
def OptionImpl.isNone : OptionImpl α → Bool
  | .noneObj _ => true
  | .someObj _ _ => false

/-- `Option.prototype.isSome()`: `!this.isNone()`. -/
def OptionImpl.isSome (o : OptionImpl α) : Bool := !o.isNone

/-- `Option.prototype.match(matcher)`: if `this.isNone()` then
`matcher.none()` else `matcher.some(this.value)`.  The branch on
`isNone_` together with the read of `this.value` is rendered as a case
split on the variant, since `isNone_` is `true` exactly on the none
variant and `value` holds the payload exactly on the some variant. -/
def OptionImpl.match_ (o : OptionImpl α) (noneCb : Unit → JSM W)
    (someCb : α → JSM W) : JSM W :=
  match o with
  | .noneObj _ => noneCb ()
  | .someObj _ v => someCb v

/-- `Option.prototype.map(mapper)`: `this.match({none: () => this,
some: value => Option.some(mapper(value))})`.  In the none branch the
source returns `this` unchanged (the `as` cast is a no-op at run time);
the branch only runs when `this` is the none variant, whose identity is
its reference, so returning the none object with `this`'s reference is
the identical object. -/
def OptionImpl.map (o : OptionImpl α) (mapper : α → JSM β) :
    JSM (OptionImpl β) :=
  o.match_
    (fun _ => JSM.pure (OptionImpl.noneObj o.ref))
    (fun v => JSM.bind (mapper v) OptionImpl.some)

/-- `Option.prototype.ifSome(executor)`: `this.map(executor);` with the
result discarded, returning `undefined`. -/
def OptionImpl.ifSome (o : OptionImpl α) (executor : α → JSM β) :
    JSM Unit :=
  JSM.bind (o.map executor) (fun _ => JSM.pure ())

/-- `Option.prototype.ifNone(executor)`: `if (this.isNone()) executor();`
returning `undefined`. -/
def OptionImpl.ifNone (o : OptionImpl α) (executor : Unit → JSM β) :
    JSM Unit :=
  if o.isNone then JSM.bind (executor ()) (fun _ => JSM.pure ())
  else JSM.pure ()

/-- `new UnwrapError(message)`: allocates an `Error` object whose
`message` is the argument and whose `name` the constructor sets to
`"UnwrapError"`. -/
def newUnwrapError (message : String) : JSM JSValue :=
  JSM.bind JSM.alloc
    (fun r => JSM.pure (JSValue.errorObj r "UnwrapError" message))

/-- `Option.prototype.expect(message)`: on the none variant evaluates
`const error = "string" === typeof message ? new UnwrapError(message) :
message; throw error;`; on the some variant returns the payload. -/
def OptionImpl.expect (o : OptionImpl α) (message : JSValue) : JSM α :=
  o.match_
    (fun _ =>
      match message with
      | .str s => JSM.bind (newUnwrapError s) (fun err => JSM.throw err)
      | m => JSM.throw m)
    (fun v => JSM.pure v)

/-- `Option.prototype.unwrap()`:
`this.expect("Tried to call unwrap() on Option.none()")`. -/
def OptionImpl.unwrap (o : OptionImpl α) : JSM α :=
  o.expect (JSValue.str "Tried to call unwrap() on Option.none()")

/-- `Option.prototype.unwrapOr(defaultValue)`; the `T | D` result union
is rendered as a sum. -/
def OptionImpl.unwrapOr (o : OptionImpl α) (defaultValue : β) :
    JSM (α ⊕ β) :=
  o.match_
    (fun _ => JSM.pure (Sum.inr defaultValue))
    (fun v => JSM.pure (Sum.inl v))

/-- `Option.prototype.unwrapOrElse(defaultValueThunk)`; the `T | D`
result union is rendered as a sum. -/
def OptionImpl.unwrapOrElse (o : OptionImpl α) (thunk : Unit → JSM β) :
    JSM (α ⊕ β) :=
  o.match_
    (fun _ => JSM.bind (thunk ()) (fun d => JSM.pure (Sum.inr d)))
    (fun v => JSM.pure (Sum.inl v))

/-- `Option.prototype.andThen(flatMapper)`: `this.match({none: () =>
Option.none(), some: flatMapper})`. -/
def OptionImpl.andThen (o : OptionImpl α)
    (flatMapper : α → JSM (OptionImpl β)) : JSM (OptionImpl β) :=
  o.match_ (fun _ => OptionImpl.none) flatMapper

/-- The loop of `optionDotAll` / `Option.all`: for each element in order,
if `option.isSome()` push `option.value` onto `values`, otherwise return
`Option.none()` at once; after the loop return `Option.some(values)`.
The `isSome()` test followed by the `value` read is a case split on the
variant. -/
def allLoop : List (OptionImpl α) → List α → JSM (OptionImpl (List α))
  | [], values => OptionImpl.some values
  | o :: rest, values =>
    match o with
    | .someObj _ v => allLoop rest (values ++ [v])
    | .noneObj _ => OptionImpl.none

/-- The free function `optionDotAll(options)` of `src/index.ts`
(`option.all`): runs the scan loop with an initially empty `values`
array. -/
def optionDotAll (options : List (OptionImpl α)) :
    JSM (OptionImpl (List α)) :=
  allLoop options []

/-- The static method `Option.all(options)`: its body is textually
identical to `optionDotAll`. -/
def OptionImpl.all (options : List (OptionImpl α)) :
    JSM (OptionImpl (List α)) :=
  allLoop options []

/-- Modelled from the spec: the repository sources declare
`xor<U>(other: Option<U>): Option<T | U>` only on the `Option` interface
(with its doc comment); no implementation body is under `src/`.  Per
spec §4.3: on a some receiver, if `other` is none return `this`, if
`other` is some return `Option.none()`; on a none receiver, if `other`
is some return `other`, if `other` is none return `Option.none()`.
`other` is an eager parameter and no callback is involved, so the
operation is pure and allocates nothing. -/
def OptionImpl.xor (o other : OptionImpl α) : OptionImpl α :=
  match o with
  | .someObj r v =>
    match other with
    | .noneObj _ => .someObj r v
    | .someObj _ _ => NONE
  | .noneObj _ =>
    match other with
    | .someObj r2 v2 => .someObj r2 v2
    | .noneObj _ => NONE

/-! ## Shared lemmas about the `all` scan loop -/

/-- On a run of some variants, the loop pushes each payload in order and
finally allocates a fresh some object wrapping the accumulated array. -/
theorem allLoop_allSome (L : List (Nat × α)) :
    ∀ (values : List α) (c : Nat),
    allLoop (L.map (fun p => OptionImpl.someObj p.1 p.2)) values c =
      (.ok (OptionImpl.someObj c (values ++ L.map Prod.snd)), c + 1) := by
  induction L with
  | nil =>
    intro values c
    simp [allLoop, OptionImpl.some, JSM.bind, JSM.alloc, JSM.pure]
  | cons p rest ih =>
    intro values c
    simp [allLoop, ih]

/-- As soon as the loop meets a none variant it returns the canonical
`NONE` at once, whatever elements follow and without allocating. -/
theorem allLoop_shortCircuit (L : List (Nat × α)) :
    ∀ (values : List α) (r : Nat) (post : List (OptionImpl α)) (c : Nat),
    allLoop (L.map (fun p => OptionImpl.someObj p.1 p.2) ++
      OptionImpl.noneObj r :: post) values c = (.ok NONE, c) := by
  induction L with
  | nil =>
    intro values r post c
    simp [allLoop, OptionImpl.none, JSM.pure]
  | cons p rest ih =>
    intro values r post c
    simp [allLoop, ih]

/-! ## The claims -/

/-- C1 counterexample: `none().unwrap()` throws an `UnwrapError` whose
message is `"Tried to call unwrap() on Option.none()"`, which is not the
message `"Tried to call unwrap() on a none value"` stated by the claim. -/
theorem unwrap_message_cex :
    OptionImpl.unwrap (α := Nat) NONE 1 =
      (.error (.errorObj 1 "UnwrapError"
        "Tried to call unwrap() on Option.none()"), 2) ∧
    "Tried to call unwrap() on Option.none()" ≠
      "Tried to call unwrap() on a none value" :=
  ⟨rfl, by decide⟩

/-- C1 (amended): `some(v).unwrap()` returns `v`; `none().unwrap()`
throws a freshly constructed `UnwrapError` whose message is exactly
`"Tried to call unwrap() on Option.none()"`; and `unwrap()` behaves as
`expect()` called with that fixed message. -/
theorem unwrap_spec : ∀ (α : Type) (r : Nat) (v : α) (c : Nat),
    OptionImpl.unwrap (.someObj r v) c = (.ok v, c) ∧
    OptionImpl.unwrap (α := α) NONE c =
      (.error (.errorObj c "UnwrapError"
        "Tried to call unwrap() on Option.none()"), c + 1) ∧
    ∀ o : OptionImpl α,
      o.unwrap = o.expect (.str "Tried to call unwrap() on Option.none()") :=
  fun _ _ _ _ => ⟨rfl, rfl, fun _ => rfl⟩

/-- C2: `all` transposition.  On the empty array it returns a some
wrapping the empty array; on an array of some variants it returns a some
wrapping the payloads in input order; on meeting a none variant it
returns `NONE` immediately, with a result (and final allocation state)
that does not depend on the elements after the first none; and the
static method `Option.all` agrees with the free function
`optionDotAll`. -/
theorem all_spec : ∀ (α : Type) (c r : Nat) (L : List (Nat × α))
    (post : List (OptionImpl α)),
    optionDotAll ([] : List (OptionImpl α)) c =
      (.ok (.someObj c []), c + 1) ∧
    optionDotAll (L.map (fun p => OptionImpl.someObj p.1 p.2)) c =
      (.ok (.someObj c (L.map Prod.snd)), c + 1) ∧
    optionDotAll (L.map (fun p => OptionImpl.someObj p.1 p.2) ++
      OptionImpl.noneObj r :: post) c = (.ok NONE, c) ∧
    ∀ options : List (OptionImpl α),
      OptionImpl.all options = optionDotAll options := by
  intro α c r L post
  refine ⟨rfl, ?_, allLoop_shortCircuit L [] r post c, fun _ => rfl⟩
  have h := allLoop_allSome L [] c
  simpa [optionDotAll] using h

/-- C3: `match` dispatches on the tag alone: on the none variant it is
the none callback's computation applied to no argument, independent of
the some callback; on a some variant it is the some callback's
computation applied to the payload, independent of the none callback. -/
theorem match_dispatch : ∀ (α W : Type) (r : Nat) (v : α)
    (noneCb : Unit → JSM W) (someCb : α → JSM W),
    OptionImpl.match_ (.noneObj r) noneCb someCb = noneCb () ∧
    OptionImpl.match_ (.someObj r v) noneCb someCb = someCb v ∧
    (∀ someCb2 : α → JSM W,
      OptionImpl.match_ (.noneObj r) noneCb someCb2 = noneCb ()) ∧
    (∀ noneCb2 : Unit → JSM W,
      OptionImpl.match_ (.someObj r v) noneCb2 someCb = someCb v) ∧
    (OptionImpl.noneObj r : OptionImpl α).isNone = true ∧
    (OptionImpl.someObj r v).isNone = false :=
  fun _ _ _ _ _ _ =>
    ⟨rfl, rfl, fun _ => rfl, fun _ => rfl, rfl, rfl⟩

/-- C4: `some(v).map(f)` yields a some wrapping `f(v)`; `map` on a none
variant returns the very same none object (same reference), allocates
nothing, and its result does not depend on the mapper at all. -/
theorem map_spec : ∀ (α β : Type) (r : Nat) (v : α) (g : α → β)
    (mapper : α → JSM β) (c : Nat),
    OptionImpl.map (.someObj r v) (fun x => JSM.pure (g x)) c =
      (.ok (.someObj c (g v)), c + 1) ∧
    OptionImpl.map (.noneObj r) mapper c = (.ok (.noneObj r), c) :=
  fun _ _ _ _ _ _ _ => ⟨rfl, rfl⟩

/-- C5: every call to `none()` returns the canonical `NONE` object
without allocating, two successive calls return reference-equal objects,
`andThen` on `NONE` returns `NONE`, `all` on a sequence containing a
none variant returns `NONE`, `map` on `NONE` returns `NONE`, and `NONE`
is reference-equal (and equal) to itself. -/
theorem none_singleton : ∀ (α : Type) (c r : Nat)
    (fm : α → JSM (OptionImpl α)) (mapper : α → JSM α)
    (L : List (Nat × α)) (post : List (OptionImpl α)),
    OptionImpl.none (α := α) c = (.ok NONE, c) ∧
    JSM.bind OptionImpl.none (fun a => JSM.bind OptionImpl.none
      (fun b => JSM.pure (refEq (α := α) a b))) c = (.ok true, c) ∧
    OptionImpl.andThen (α := α) NONE fm c = (.ok NONE, c) ∧
    optionDotAll (L.map (fun p => OptionImpl.someObj p.1 p.2) ++
      OptionImpl.noneObj r :: post) c = (.ok NONE, c) ∧
    OptionImpl.map NONE mapper c = (.ok NONE, c) ∧
    refEq (NONE : OptionImpl α) NONE = true := by
  intro α c r fm mapper L post
  exact ⟨rfl, rfl, rfl, allLoop_shortCircuit L [] r post c, rfl, rfl⟩

/-- C6: on the none variant, the string overload of `expect` throws a
freshly allocated `UnwrapError` (reference equal to the current counter,
hence distinct from every object allocated before) whose message is the
supplied string; the error-object overload throws the supplied object
itself, with reference, name and message untouched and nothing
allocated; on a some variant both overloads return the payload and the
argument is unused. -/
theorem expect_overloads : ∀ (α : Type) (s nm msg : String)
    (r er c : Nat) (v : α) (arg : JSValue),
    OptionImpl.expect (α := α) (.noneObj r) (.str s) c =
      (.error (.errorObj c "UnwrapError" s), c + 1) ∧
    OptionImpl.expect (α := α) (.noneObj r) (.errorObj er nm msg) c =
      (.error (.errorObj er nm msg), c) ∧
    OptionImpl.expect (.someObj r v) arg c = (.ok v, c) :=
  fun _ _ _ _ _ _ _ _ _ => ⟨rfl, rfl, rfl⟩

/-- C7: `xor` returns the some argument when exactly one of the two is
some (the receiver itself, or `other` itself), and `NONE` when both are
some or both are none. -/
theorem xor_spec : ∀ (α : Type) (r1 r2 : Nat) (x y : α),
    OptionImpl.xor (.someObj r1 x) (.someObj r2 y) = NONE ∧
    OptionImpl.xor (.someObj r1 x) NONE = .someObj r1 x ∧
    OptionImpl.xor NONE (.someObj r2 y) = .someObj r2 y ∧
    OptionImpl.xor (NONE : OptionImpl α) NONE = NONE :=
  fun _ _ _ _ _ => ⟨rfl, rfl, rfl, rfl⟩

/-- C8: `andThen` on a none variant returns `NONE` without running the
flat mapper (the result does not depend on it and the allocation state
is untouched); on a some variant it is exactly the computation
`flatMapper v` on the payload, returned directly with no re-wrapping. -/
theorem andThen_spec : ∀ (α β : Type) (r : Nat) (v : α)
    (fm : α → JSM (OptionImpl β)) (c : Nat),
    OptionImpl.andThen (.noneObj r) fm c = (.ok NONE, c) ∧
    OptionImpl.andThen (.someObj r v) fm = fm v :=
  fun _ _ _ _ _ _ => ⟨rfl, rfl⟩

/-- C9: when a user-supplied callback throws, every combinator of the
implementation rethrows the very same value to its own caller — `map`
(mapper), `andThen` (flat mapper), `unwrapOrElse` (thunk), `match`
(either callback), `ifSome` and `ifNone` (executors). -/
theorem callback_failures_propagate : ∀ (α β : Type) (r : Nat) (v : α)
    (e : JSValue) (c c2 : Nat) (mapper : α → JSM β)
    (fm : α → JSM (OptionImpl β)) (thunk : Unit → JSM β)
    (noneCb : Unit → JSM β) (someCb : α → JSM β),
    (mapper v c = (.error e, c2) →
      OptionImpl.map (.someObj r v) mapper c = (.error e, c2)) ∧
    (fm v c = (.error e, c2) →
      OptionImpl.andThen (.someObj r v) fm c = (.error e, c2)) ∧
    (thunk () c = (.error e, c2) →
      OptionImpl.unwrapOrElse (α := α) (.noneObj r) thunk c =
        (.error e, c2)) ∧
    (someCb v c = (.error e, c2) →
      OptionImpl.match_ (.someObj r v) noneCb someCb c = (.error e, c2)) ∧
    (noneCb () c = (.error e, c2) →
      OptionImpl.match_ (.noneObj r) noneCb someCb c = (.error e, c2)) ∧
    (mapper v c = (.error e, c2) →
      OptionImpl.ifSome (.someObj r v) mapper c = (.error e, c2)) ∧
    (noneCb () c = (.error e, c2) →
      OptionImpl.ifNone (α := α) (.noneObj r) noneCb c = (.error e, c2)) := by
  intro α β r v e c c2 mapper fm thunk noneCb someCb
  refine ⟨fun h => ?_, fun h => ?_, fun h => ?_, fun h => ?_,
    fun h => ?_, fun h => ?_, fun h => ?_⟩
  · simp [OptionImpl.map, OptionImpl.match_, JSM.bind, h]
  · simpa [OptionImpl.andThen, OptionImpl.match_] using h
  · simp [OptionImpl.unwrapOrElse, OptionImpl.match_, JSM.bind, h]
  · simpa [OptionImpl.match_] using h
  · simpa [OptionImpl.match_] using h
  · simp [OptionImpl.ifSome, OptionImpl.map, OptionImpl.match_,
      JSM.bind, h]
  · simp [OptionImpl.ifNone, OptionImpl.isNone, JSM.bind, h]

/-- C9 witness: a mapper that throws `"boom"` makes `map` on a some
variant throw `"boom"` unchanged. -/
theorem callback_failures_propagate_witness :
    OptionImpl.map (α := Nat) (β := Nat) (.someObj 1 5)
      (fun _ => JSM.throw (.str "boom")) 3 = (.error (.str "boom"), 3) :=
  (callback_failures_propagate Nat Nat 1 5 (.str "boom") 3 3
    (fun _ => JSM.throw (.str "boom")) (fun _ => OptionImpl.none)
    (fun _ => JSM.throw (.str "boom")) (fun _ => JSM.throw (.str "boom"))
    (fun _ => JSM.throw (.str "boom"))).1 rfl

/-- C10: the overload dispatch of `expect` on the none variant is the
run-time test `"string" === typeof message`: every non-string argument
is thrown exactly as supplied (nothing allocated), while a string
argument — the only case the test selects — is wrapped in a new
`UnwrapError`. -/
theorem expect_typeof_dispatch : ∀ (α : Type) (m : JSValue)
    (r c : Nat) (s : String),
    (typeofIsString m = false →
      OptionImpl.expect (α := α) (.noneObj r) m c = (.error m, c)) ∧
    typeofIsString (.str s) = true ∧
    OptionImpl.expect (α := α) (.noneObj r) (.str s) c =
      (.error (.errorObj c "UnwrapError" s), c + 1) := by
  intro α m r c s
  refine ⟨fun h => ?_, rfl, rfl⟩
  cases m with
  | str t => simp [typeofIsString] at h
  | errorObj er nm msg => rfl
  | otherObj i => rfl

/-- C10 witness: a non-string, non-error value is thrown exactly as
supplied. -/
theorem expect_typeof_dispatch_witness :
    OptionImpl.expect (α := Nat) (.noneObj 0) (.otherObj 7) 3 =
      (.error (.otherObj 7), 3) :=
  (expect_typeof_dispatch Nat (.otherObj 7) 0 3 "x").1 rfl
